import Mathlib

/-!
A shallow embedding of `prolific_helpers.py`: helper functions wrapping the
Prolific survey-platform REST API and shaping/plotting the returned tabular
data.  Network requests become explicit arguments (the JSON of the study
metadata, the CSV export already parsed into a table); raising code returns
`Except`/`Option`; the `uuid.uuid4()` and `datetime.now()` calls become an
explicit id supply / timestamp argument; Python numbers are modelled as
exact rationals (floating-point rounding is not modelled).  Printing to
standard output is modelled by the returned list of printed lines.
-/

/-- Python-level values as they appear in JSON fields and pandas cells.
`PyVal.none` stands for Python `None` and for a pandas missing value (NaN);
numbers are exact (`ℤ`/`ℚ`). -/
inductive PyVal where
  | none
  | int (n : ℤ)
  | float (q : ℚ)
  | str (s : String)
  deriving DecidableEq

/-- Python `int()` applied to an exact number: truncation toward zero.
Used at src line 132, `int(study_config["reward"] * 100)`, and at
src line 335, `int(float(age))`. -/
def pyInt (q : ℚ) : ℤ := Int.tdiv q.num q.den

/-- Floor of a rational, computably (`Int.floor` on `ℚ` does not reduce in
the kernel). -/
def ratFloor (q : ℚ) : ℤ := Int.fdiv q.num q.den

/-- The integer printed by the Python format `"{:.0f}"` (src line 232):
round to the nearest integer, ties to even.  The comparisons are carried
out on integers: with `f = ⌊q⌋`, the quantity `2*q.num - 2*f*q.den` is
`2*(q - f)*q.den`, so comparing it with `q.den` compares the fractional
part `q - f` with `1/2`. -/
def roundHalfEven (q : ℚ) : ℤ :=
  let f := ratFloor q
  let twiceFracNum := 2 * q.num - 2 * f * (q.den : ℤ)
  if twiceFracNum < (q.den : ℤ) then f
  else if (q.den : ℤ) < twiceFracNum then f + 1
  else if f % 2 = 0 then f else f + 1

/-- `q * 2^s` computed on the numerator/denominator (`Rat.divInt` reduces
in the kernel where the `Mul ℚ` instance does not). -/
def mulPow2 (q : ℚ) (s : ℤ) : ℚ :=
  if 0 ≤ s then Rat.divInt (q.num * 2 ^ s.toNat) (q.den : ℤ)
  else Rat.divInt q.num ((q.den : ℤ) * 2 ^ (-s).toNat)

/-- `q * n` computed on the numerator (kernel-reducible product). -/
def mulInt (q : ℚ) (n : ℤ) : ℚ := Rat.divInt (q.num * n) (q.den : ℤ)

/-- Largest `k' ≥ k` with `d * 2^k' ≤ n`, by upward search; the fuel
bounds the search, and 1100 steps cover the whole binary64 exponent
range. -/
def log2SearchUp : ℕ → ℕ → ℕ → ℕ → ℕ
  | 0, _, _, k => k
  | fuel + 1, n, d, k =>
      if d * 2 ^ (k + 1) ≤ n then log2SearchUp fuel n d (k + 1) else k

/-- Smallest `j' ≥ j` with `d ≤ n * 2^j'`, by upward search. -/
def log2SearchDn : ℕ → ℕ → ℕ → ℕ → ℕ
  | 0, _, _, j => j
  | fuel + 1, n, d, j =>
      if d ≤ n * 2 ^ j then j else log2SearchDn fuel n d (j + 1)

/-- `⌊log₂ q⌋` for a positive rational `q = n/d`: the exponent `e` with
`2^e ≤ q < 2^(e+1)`. -/
def floorLog2 (q : ℚ) : ℤ :=
  let n := q.num.toNat
  let d := q.den
  if d ≤ n then (log2SearchUp 1100 n d 0 : ℤ)
  else -(log2SearchDn 1100 n d 1 : ℤ)

/-- Round a positive rational to the nearest IEEE-754 binary64 value:
with `e = ⌊log₂ q⌋` the representable values around `q` are the integer
multiples of `2^(e-52)` (53-bit significand), and the significand is
rounded to nearest, ties to even. -/
def flPos (q : ℚ) : ℚ :=
  let e := floorLog2 q
  let m := roundHalfEven (mulPow2 q (52 - e))
  mulPow2 ((m : ℤ) : ℚ) (e - 52)

/-- The binary64 rounding of an exact rational: the value of a Python
float literal and of a float arithmetic result (IEEE-754 round to
nearest, ties to even).  Exponent overflow and subnormals are not
modelled; every value the claims feed is in the normal range. -/
def fl (q : ℚ) : ℚ :=
  if q.num = 0 then 0
  else if q.num < 0 then -(flPos (-q))
  else flPos q

/-- The natural number denoted by a list of decimal digit characters. -/
def digitsToNat (cs : List Char) : ℕ :=
  cs.foldl (fun a c => 10 * a + (c.toNat - 48)) 0

/-- Models Python `float(s)` on plain decimal string literals: an optional
sign, then digits with an optional fractional part, with value
`±(ip.fp) = ±(ip*10^k + fp) / 10^k`.  The rational is built with
`Rat.divInt` (exact division, and it reduces in the kernel).  The other
forms `float` accepts (exponents, "inf", "nan", surrounding whitespace) are
not modelled; no claim feeds them.  An unparseable string gives
`Option.none` (the `ValueError` caught at src 334-338). -/
def parseDecimal? (s : String) : Option ℚ :=
  let signed : ℤ × List Char :=
    match s.toList with
    | '-' :: rest => (-1, rest)
    | '+' :: rest => (1, rest)
    | rest => (1, rest)
  let sgn := signed.1
  match signed.2.span (· != '.') with
  | (ip, []) =>
      if ip ≠ [] ∧ ip.all Char.isDigit then
        some (Rat.divInt (sgn * (digitsToNat ip : ℤ)) 1)
      else Option.none
  | (ip, _ :: fp) =>
      if (ip ≠ [] ∨ fp ≠ []) ∧ ip.all Char.isDigit ∧ fp.all Char.isDigit then
        some (Rat.divInt
          (sgn * ((digitsToNat ip : ℤ) * (10 : ℤ) ^ fp.length + (digitsToNat fp : ℤ)))
          ((10 : ℤ) ^ fp.length))
      else Option.none

/-- Days in a month of the proleptic Gregorian calendar. -/
def daysInMonth (y m : ℕ) : ℕ :=
  if m = 2 then (if y % 4 = 0 ∧ (y % 100 ≠ 0 ∨ y % 400 = 0) then 29 else 28)
  else if m = 4 ∨ m = 6 ∨ m = 9 ∨ m = 11 then 30
  else 31

/-- Days since 1970-01-01 of a Gregorian date (the standard civil-from-days
conversion). -/
def daysFromCivil (y : ℤ) (m d : ℕ) : ℤ :=
  let yr := if m ≤ 2 then y - 1 else y
  let era := Int.fdiv yr 400
  let yoe := yr - era * 400
  let mp : ℤ := if 2 < m then (m : ℤ) - 3 else (m : ℤ) + 9
  let doy := Int.fdiv (153 * mp + 2) 5 + (d : ℤ) - 1
  let doe := yoe * 365 + Int.fdiv yoe 4 - Int.fdiv yoe 100 + doy
  era * 146097 + doe - 719468

/-- Parse an ISO-8601 UTC timestamp of the shape `YYYY-MM-DDTHH:MM:SSZ`
into seconds since the Unix epoch.  Models `datetime.fromisoformat` (after
the source replaces the `Z` suffix by `+00:00`, src 199) and the successful
case of `pandas.to_datetime(..., utc=True)` on the timestamp strings of a
Prolific export (src 220).  Fractional seconds and non-UTC offsets are not
modelled; any string not of this shape parses to `Option.none`. -/
def parseISOUTC? (s : String) : Option ℤ :=
  match s.toList with
  | [y1, y2, y3, y4, '-', mo1, mo2, '-', d1, d2, 'T',
     h1, h2, ':', mi1, mi2, ':', s1, s2, 'Z'] =>
      let ys := [y1, y2, y3, y4]
      let digits := ys ++ [mo1, mo2] ++ [d1, d2] ++ [h1, h2] ++ [mi1, mi2] ++ [s1, s2]
      if digits.all Char.isDigit then
        let y := digitsToNat ys
        let mo := digitsToNat [mo1, mo2]
        let d := digitsToNat [d1, d2]
        let h := digitsToNat [h1, h2]
        let mi := digitsToNat [mi1, mi2]
        let sec := digitsToNat [s1, s2]
        if 1 ≤ mo ∧ mo ≤ 12 ∧ 1 ≤ d ∧ d ≤ daysInMonth y mo ∧ h ≤ 23 ∧ mi ≤ 59 ∧ sec ≤ 59 then
          some (86400 * daysFromCivil (y : ℤ) mo d + 3600 * (h : ℤ) + 60 * (mi : ℤ) + (sec : ℤ))
        else Option.none
      else Option.none
  | _ => Option.none

/-- A pandas DataFrame, represented by its columns in order: each column is
its header paired with its cells (one per row). -/
structure DF where
  cols : List (String × List PyVal)
  deriving DecidableEq

/-- `df.columns`, in order. -/
def colNames (df : DF) : List String := df.cols.map Prod.fst

/-- The first column with the given header, by walking the column list. -/
def lookupCol (name : String) : List (String × List PyVal) → Option (List PyVal)
  | [] => Option.none
  | p :: rest => if p.1 = name then some p.2 else lookupCol name rest

/-- Column access `df[name]`: the first column with the given header;
`Option.none` models the `KeyError` raise on a missing column. -/
def getCol? (df : DF) (name : String) : Option (List PyVal) :=
  lookupCol name df.cols

/-- Column access where the caller has already checked the column exists. -/
def getColD (df : DF) (name : String) : List PyVal := (getCol? df name).getD []

/-- The standard Prolific columns, src 255-256. -/
def standard_prolific_cols : List String :=
  ["Submission id", "Participant id", "Status", "Started at",
   "Completed at", "Time taken", "Age", "Sex"]

/-- The excluded demographic/meta columns, src 261-266. -/
def excluded_meta_cols : List String :=
  ["Reviewed at", "Archived at", "Completion code", "Country of birth",
   "Country of residence", "Nationality", "Language", "Student status",
   "Employment status", "Long-term health condition/disability",
   "Fluent languages", "Sexual orientation",
   "Highest education level completed", "Degree subject",
   "Work role", "Submission approval rate"]

/-- The filter of src 259-266: a column counts as a likely survey-question
column when it is not a standard Prolific column, does not start with
`"Custom "` (checked on the character lists, since `String.startsWith` does
not reduce in the kernel), and is not an excluded demographic/meta
column. -/
def isSurveyCol (c : String) : Bool :=
  !(standard_prolific_cols.contains c)
    && !("Custom ".toList.isPrefixOf c.toList)
    && !(excluded_meta_cols.contains c)

/-- `find_question_column`, src 237-272.  `Option.none` models the
`IndexError` that `df.columns[-1]` raises on a table with no columns. -/
def find_question_column (df : DF) (question_text : String) : Option String :=
  if question_text ∈ colNames df then some question_text
  else
    match (colNames df).filter isSurveyCol with
    | c :: _ => some c
    | [] => (colNames df).getLast?

/-- `float(age)` on a Python value: `float()` raises `TypeError` on `None`
and `ValueError` on a non-numeric string; both exceptions are modelled by
`Option.none` (they are exactly the ones caught at src 334-338). -/
def pyFloatOf : PyVal → Option ℚ
  | PyVal.none => Option.none
  | PyVal.int n => some (n : ℚ)
  | PyVal.float q => some q
  | PyVal.str s => parseDecimal? s

/-- `age_to_generation`, src 324-351. -/
def age_to_generation (age : PyVal) : String :=
  match pyFloatOf age with
  | Option.none => "Unknown"
  | some x =>
      let age_int := pyInt x
      if age_int < 18 then "Gen Alpha (under 18)"
      else if age_int ≤ 27 then "Gen Z (18-27)"
      else if age_int ≤ 43 then "Millennial (28-43)"
      else if age_int ≤ 59 then "Gen X (44-59)"
      else if age_int ≤ 78 then "Baby Boomer (60-78)"
      else "Silent Generation (79+)"

/-- The survey configuration dictionary consumed by `create_survey`
(src 36-39). -/
structure SurveyConfig where
  title : String
  question_text : String
  answers : List String
  deriving DecidableEq

/-- An answer entry of the survey payload (src 50-53). -/
structure AnswerItem where
  id : ℕ
  value : String
  deriving DecidableEq

/-- The question entry of the survey payload (src 56-61).  The JSON key
`"type"` (always `"single"`) is the field `qtype`. -/
structure QuestionItem where
  id : ℕ
  title : String
  qtype : String
  answers : List AnswerItem
  deriving DecidableEq

/-- A section entry of the survey payload (src 67-73). -/
structure SectionItem where
  id : ℕ
  title : String
  questions : List QuestionItem
  deriving DecidableEq

/-- The survey payload `survey_data` (src 64-75). -/
structure SurveyData where
  researcher_id : String
  title : String
  sections : List SectionItem
  questions : List QuestionItem
  deriving DecidableEq

/-- Models `str(uuid.uuid4())`: drawing from an id supply yields the
current token and the advanced supply; tokens drawn from successive states
are distinct, which is the property uuid4 is used for. -/
def freshId (g : ℕ) : ℕ × ℕ := (g, g + 1)

/-- The list comprehension `[str(uuid.uuid4()) for _ in answers]`
(src 47): one fresh id per answer. -/
def freshIds (g : ℕ) : List String → List ℕ × ℕ
  | [] => ([], g)
  | _ :: rest =>
      let p := freshId g
      let q := freshIds p.2 rest
      (p.1 :: q.1, q.2)

/-- `create_survey`, src 29-84: the payload POSTed to the surveys endpoint,
together with the advanced id supply.  The HTTP POST and the platform's
response (the returned survey id) are external and not modelled. -/
def create_survey (researcher_id : String) (survey_config : SurveyConfig)
    (g : ℕ) : SurveyData × ℕ :=
  let s := freshId g
  let q := freshId s.2
  let a := freshIds q.2 survey_config.answers
  let answers :=
    (a.1.zip survey_config.answers).map (fun p => AnswerItem.mk p.1 p.2)
  let question :=
    QuestionItem.mk q.1 survey_config.question_text "single" answers
  (SurveyData.mk researcher_id survey_config.title
    [SectionItem.mk s.1 survey_config.question_text [question]]
    [question], a.2)

/-- The study configuration dictionary consumed by `create_study`
(src 99-108).  `internal_name_stem` is the optional key spelled
`internal_name_` + `prefix` in the source (src 120); that spelling is not
usable as a Lean field name here.  `reward` is the exact value of the
caller's reward, a Python float: a caller writing the two-decimal literal
`0.29` passes the binary64 value `fl (29/100)`. -/
structure StudyConfig where
  name : String
  internal_name_stem : Option String
  description : String
  reward : ℚ
  participants : ℤ
  estimated_time : ℤ
  max_time : ℤ
  device_compatibility : List String
  privacy_notice : String

/-- A completion-code entry of the study payload (src 123-129); the single
action dictionary `{"action": ...}` is flattened to the action string. -/
structure CompletionCode where
  code : String
  code_type : String
  actions : List String
  deriving DecidableEq

/-- The study payload `study_data` (src 118-138). -/
structure StudyData where
  name : String
  internal_name : String
  description : String
  external_study_url : String
  completion_codes : List CompletionCode
  estimated_completion_time : ℤ
  max_time : ℤ
  reward : ℤ
  total_available_places : ℤ
  device_compatibility : List String
  peripheral_requirements : List String
  privacy_notice : String
  project : String

/-- `create_study`, src 87-148: the study payload POSTed to the studies
endpoint.  The two `datetime.now().strftime('%Y%m%d_%H%M%S')` calls
(src 115, 120) become the explicit argument `now_stamp`; the HTTP POST and
the response (the returned study id) are external and not modelled.  The
reward field is `int(study_config["reward"] * 100)` (src 132) in Python
float arithmetic: the binary64 product (`fl` of the exact product) is
truncated toward zero. -/
def create_study (survey_id : String) (study_config : StudyConfig)
    (project_id : String) (now_stamp : String) : StudyData :=
  let completion_code := "AI_DAILYLIFE_" ++ now_stamp
  { name := study_config.name,
    internal_name :=
      (study_config.internal_name_stem.getD study_config.name) ++ " " ++ now_stamp,
    description := study_config.description,
    external_study_url := "https://prolific.com/surveys/" ++ survey_id,
    completion_codes := [CompletionCode.mk completion_code "COMPLETED" ["AUTOMATICALLY_APPROVE"]],
    estimated_completion_time := study_config.estimated_time,
    max_time := study_config.max_time,
    reward := pyInt (fl (mulInt study_config.reward 100)),
    total_available_places := study_config.participants,
    device_compatibility := study_config.device_compatibility,
    peripheral_requirements := [],
    privacy_notice := study_config.privacy_notice,
    project := project_id }

/-- The fields `show_study_results` reads from the study-metadata JSON
(src 192-198); each is `Option` because the source reads them with
`.get`, so an absent or null field becomes `None`. -/
structure StudyInfo where
  status : Option String
  name : Option String
  total_available_places : Option ℤ
  places_taken : Option ℤ
  published_at : Option String
  deriving DecidableEq

/-- One line printed by `show_study_results` (src 203-207, 216, 224, 228,
232): the constructor identifies the line, its argument is the dynamic
datum shown on it.  The `strftime` text rendering of a displayed instant is
presentation only and is modelled by the displayed instant itself. -/
inductive Printed where
  | studyName (v : Option String)
  | status (v : Option String)
  | totalPlaces (v : Option ℤ)
  | totalSubmissions (v : Option ℤ)
  | createdAt (displayInstant : ℤ)
  | completedColumnMissing
  | noCompletionsYet
  | lastResponseAt (displayInstant : ℤ)
  | timeLapsed (minutes : ℤ)
  deriving DecidableEq

/-- `pd.to_datetime(value, errors="coerce", utc=True)` on one cell of the
`"Completed at"` column (src 220): a parseable timestamp string gives its
UTC instant, everything else (missing values, unparseable strings) coerces
to `NaT`, modelled by `Option.none`.  Numeric cells also map to
`Option.none`: the export's timestamp cells are strings or missing. -/
def to_datetime_coerce (v : PyVal) : Option ℤ :=
  match v with
  | PyVal.str s => parseISOUTC? s
  | _ => Option.none

/-- `Series.max` over the non-missing values (src 221): `Option.none` when
the series is empty (pandas `NaT`, the all-missing case of src 223). -/
def seriesMax? (l : List ℤ) : Option ℤ :=
  l.foldl
    (fun acc x =>
      match acc with
      | Option.none => some x
      | some m => some (if m < x then x else m))
    Option.none

/-- `show_study_results`, src 172-234.  The two GET requests become the
arguments `study_info` (the study-metadata JSON) and `export` (the CSV
export parsed into a table); `display_tz` is the display time zone as its
UTC offset in minutes (how `ZoneInfo` renders an instant is external).
`Except.error` models an uncaught exception: the `AttributeError` of
`published_iso.replace` when `published_at` is absent or null (src 199),
or the `ValueError` of `fromisoformat` on an unparseable value.  On
success the result is the list of printed lines and the returned
DataFrame. -/
def show_study_results (study_info : StudyInfo) (exportDf : DF)
    (display_tz : ℤ) : Except String (List Printed × DF) :=
  match study_info.published_at with
  | Option.none => Except.error "AttributeError: replace on None"
  | some published_iso =>
      match parseISOUTC? published_iso with
      | Option.none => Except.error "ValueError: invalid isoformat string"
      | some created_at_utc =>
          let created_at_display := created_at_utc + 60 * display_tz
          let infoLines : List Printed :=
            [Printed.studyName study_info.name,
             Printed.status study_info.status,
             Printed.totalPlaces study_info.total_available_places,
             Printed.totalSubmissions study_info.places_taken,
             Printed.createdAt created_at_display]
          if "Completed at" ∈ colNames exportDf then
            let completed_times := (getColD exportDf "Completed at").map to_datetime_coerce
            match seriesMax? (completed_times.filterMap id) with
            | Option.none =>
                Except.ok (infoLines ++ [Printed.noCompletionsYet], exportDf)
            | some latest_completion_utc =>
                let latest_completion_display := latest_completion_utc + 60 * display_tz
                let duration_minutes :=
                  roundHalfEven (Rat.divInt (latest_completion_utc - created_at_utc) 60)
                Except.ok (infoLines ++
                  [Printed.lastResponseAt latest_completion_display,
                   Printed.timeLapsed duration_minutes], exportDf)
          else
            Except.ok (infoLines ++ [Printed.completedColumnMissing], exportDf)

/-- The minutes figure on the `Time Lapsed` line of the output, when one
was printed. -/
def timeLapsedOf : Printed → Option ℤ
  | Printed.timeLapsed m => some m
  | _ => Option.none

/-- The elapsed time reported by a `show_study_results` run: the minutes
on its `Time Lapsed` line, `Option.none` when none was printed or the run
raised. -/
def reportedMinutes (res : Except String (List Printed × DF)) : Option ℤ :=
  match res with
  | Except.ok out => (out.1.filterMap timeLapsedOf).head?
  | Except.error _ => Option.none

/-- The lines printed by a `show_study_results` run (empty if it raised). -/
def printedOf (res : Except String (List Printed × DF)) : List Printed :=
  match res with
  | Except.ok out => out.1
  | Except.error _ => []

/-- `str()` of a cell value, as `.astype(str)` applies it after `.dropna()`
(src 296-297).  The claims count string-valued answer cells; the Python
text rendering of numeric cells is not modelled beyond the integer case. -/
def pyStr : PyVal → String
  | PyVal.none => "None"
  | PyVal.int n => toString n
  | PyVal.float q => toString q
  | PyVal.str s => s

/-- Is the cell a pandas missing value (dropped by `.dropna()`)? -/
def pyIsNa : PyVal → Bool
  | PyVal.none => true
  | _ => false

/-- `value_counts()` (src 298): one `(value, count)` entry per distinct
value, sorted by descending count (its default).  Its key order among
equal counts is not part of the model. -/
def value_counts (vals : List String) : List (String × ℕ) :=
  (vals.dedup.map (fun k => (k, vals.count k))).insertionSort
    (fun a b => b.2 ≤ a.2)

/-- The frequency series of src 294-300: drop missing values, stringify,
count, then `.sort_values(ascending=True)`. -/
def response_counts (vals : List PyVal) : List (String × ℕ) :=
  (value_counts ((vals.filter (fun v => !(pyIsNa v))).map pyStr)).insertionSort
    (fun a b => a.2 ≤ b.2)

/-- `plot_survey_responses`, src 275-321: the frequency series the
horizontal bar chart renders.  Label wrapping, figure sizing and the
matplotlib objects are presentation and are not modelled; `Option.none`
models the raise on a table with no columns. -/
def plot_survey_responses (df : DF) (question_column : String) :
    Option (List (String × ℕ)) := do
  let actual_column ← find_question_column df question_column
  let vals ← getCol? df actual_column
  some (response_counts vals)

/-- Column assignment `df[name] = vals` on a frame: replaces the cells of
an existing column of that header, or appends a new column at the end. -/
def addColumn (df : DF) (name : String) (vals : List PyVal) : DF :=
  if name ∈ colNames df then
    DF.mk (df.cols.map (fun p => if p.1 = name then (p.1, vals) else p))
  else DF.mk (df.cols ++ [(name, vals)])

/-- A heap of pandas frames: python frame variables are indices into the
store, so that `df.copy()` (allocation) and in-place column assignment
through a reference are distinguishable from effects on the caller's
frame. -/
abbrev Store := List DF

/-- The distinct values of a list, each paired with its number of
occurrences. -/
def tally {α : Type} [DecidableEq α] (l : List α) : List (α × ℕ) :=
  l.dedup.map (fun k => (k, l.count k))

/-- `pd.crosstab(xs, ys)` (src 379), as the table of (row label, column
label) pair counts: a row whose label or value is missing is dropped. -/
def crosstab (xs ys : List PyVal) : List ((PyVal × PyVal) × ℕ) :=
  tally ((xs.zip ys).filter (fun p => !(pyIsNa p.1) && !(pyIsNa p.2)))

/-- The fixed generation display order, src 382-389. -/
def generation_order : List String :=
  ["Gen Alpha (under 18)",
   "Gen Z (18-27)",
   "Millennial (28-43)",
   "Gen X (44-59)",
   "Baby Boomer (60-78)",
   "Silent Generation (79+)"]

/-- `crosstab.reindex(order)` on the rows (src 393): the entries regrouped
by row label in the given order. -/
def reindexRows (ct : List ((PyVal × PyVal) × ℕ)) (order : List PyVal) :
    List ((PyVal × PyVal) × ℕ) :=
  (order.map (fun g => ct.filter (fun e => e.1.1 == g))).flatten

/-- `plot_responses_by_generation`, src 354-407, over an explicit store of
frames: the caller's frame is store slot `r`.  The source's `df.copy()`
(src 373) allocates a fresh slot holding the same table, and the
`Generation` column assignment (src 376) updates that fresh slot in
place.  Matplotlib rendering is not modelled: the returned value is the
generation-ordered crosstab the grouped bar chart is drawn from, together
with the store after the call.  `Option.none` models an uncaught
exception (missing frame, no columns, or a missing age column). -/
def plot_responses_by_generation (σ : Store) (r : ℕ)
    (question_column : String) (age_column : String) :
    Option (Store × List ((PyVal × PyVal) × ℕ)) :=
  match σ[r]? with
  | Option.none => Option.none
  | some df =>
    match find_question_column df question_column with
    | Option.none => Option.none
    | some actual_column =>
      let df_copy_ref := σ.length
      let σ₁ := σ ++ [df]
      match σ₁[df_copy_ref]? with
      | Option.none => Option.none
      | some df_copy₀ =>
        match getCol? df_copy₀ age_column with
        | Option.none => Option.none
        | some ages =>
          let σ₂ := σ₁.set df_copy_ref
            (addColumn df_copy₀ "Generation"
              (ages.map (fun v => PyVal.str (age_to_generation v))))
          match σ₂[df_copy_ref]? with
          | Option.none => Option.none
          | some df_copy =>
            match getCol? df_copy "Generation" with
            | Option.none => Option.none
            | some gens =>
              match getCol? df_copy actual_column with
              | Option.none => Option.none
              | some answers =>
                let ct := crosstab gens answers
                let order := generation_order.filter
                  (fun gname => (ct.map (fun e => e.1.1)).contains (PyVal.str gname))
                some (σ₂, reindexRows ct (order.map PyVal.str))

/-- A column with extra cells appended, leaving every other column as it
is (used to state that extra unparseable cells do not change a result). -/
def extendCol (df : DF) (name : String) (extra : List PyVal) : DF :=
  DF.mk (df.cols.map (fun p => if p.1 = name then (p.1, p.2 ++ extra) else p))

/-- A study configuration whose reward is the Python float literal
`2.50`. -/
def cfgC1 : StudyConfig :=
  { name := "S", internal_name_stem := Option.none, description := "d",
    reward := fl (Rat.divInt 5 2), participants := 10, estimated_time := 5,
    max_time := 20, device_compatibility := ["desktop"],
    privacy_notice := "p" }

/-- A study configuration whose reward is the Python float literal
`0.29`: the binary64 value nearest 29/100, which is slightly below it. -/
def cfgC1f : StudyConfig :=
  { name := "S", internal_name_stem := Option.none, description := "d",
    reward := fl (Rat.divInt 29 100), participants := 10, estimated_time := 5,
    max_time := 20, device_compatibility := ["desktop"],
    privacy_notice := "p" }

/-- An export whose only non-standard, non-excluded column is the survey
question. -/
def dfC2 : DF :=
  DF.mk [("Submission id", []), ("Age", []), ("What did you eat?", [])]

/-- A survey configuration with three answers. -/
def cfgC7 : SurveyConfig := SurveyConfig.mk "T" "Q" ["a", "b", "c"]

instance : DecidableRel (fun (a b : String × ℕ) => a.2 ≤ b.2) :=
  fun a b => Nat.decLe a.2 b.2

instance : DecidableRel (fun (a b : String × ℕ) => b.2 ≤ a.2) :=
  fun a b => Nat.decLe b.2 a.2

instance : IsTotal (String × ℕ) (fun a b => a.2 ≤ b.2) :=
  ⟨fun a b => Nat.le_total a.2 b.2⟩

instance : IsTrans (String × ℕ) (fun a b => a.2 ≤ b.2) :=
  ⟨fun _ _ _ h1 h2 => Nat.le_trans h1 h2⟩

instance : IsTotal (String × ℕ) (fun a b => b.2 ≤ a.2) :=
  ⟨fun a b => Nat.le_total b.2 a.2⟩

instance : IsTrans (String × ℕ) (fun a b => b.2 ≤ a.2) :=
  ⟨fun _ _ _ h1 h2 => Nat.le_trans h2 h1⟩

/-- A one-column export with the cells of the C8 sample. -/
def dfC8 : DF :=
  DF.mk [("Q1", [PyVal.str "A", PyVal.str "A", PyVal.str "B", PyVal.none])]

/-- Study metadata with a parseable published time. -/
def infoC4 : StudyInfo :=
  StudyInfo.mk (some "ACTIVE") (some "Test") (some 10) (some 1)
    (some "2025-01-01T00:00:00Z")

/-- An export with no `"Completed at"` column. -/
def dfC5 : DF := DF.mk [("Submission id", []), ("Q1", [])]

/-- Study metadata whose `published_at` is absent/null. -/
def infoC10 : StudyInfo :=
  StudyInfo.mk (some "UNPUBLISHED") (some "Test") (some 10) (some 0) Option.none

/-- An export whose single completion is at 2025-01-01T00:30:00Z. -/
def dfC4 : DF :=
  DF.mk [("Submission id", [PyVal.str "s1"]),
         ("Completed at", [PyVal.str "2025-01-01T00:30:00Z"])]

/-- An export whose completion column holds one parseable timestamp, one
garbage string and one missing value. -/
def dfC6 : DF :=
  DF.mk [("Completed at",
    [PyVal.str "2025-01-01T00:30:00Z", PyVal.str "garbage", PyVal.none])]

/-- A store holding one frame with an age column and an answer column. -/
def dfC9 : DF := DF.mk [("Age", [PyVal.int 25]), ("Q1", [PyVal.str "A"])]

/-- `dfC9` with the derived Generation column, as the internal copy ends
up. -/
def dfC9b : DF :=
  DF.mk [("Age", [PyVal.int 25]), ("Q1", [PyVal.str "A"]),
         ("Generation", [PyVal.str "Gen Z (18-27)"])]

lemma pyInt_intCast (k : ℤ) : pyInt ((k : ℤ) : ℚ) = k := by
  simp [pyInt, Rat.num_intCast, Rat.den_intCast, Int.tdiv_one]

lemma ratFloor_eq_floor (q : ℚ) : ratFloor q = ⌊q⌋ := by
  rw [ratFloor, Rat.floor_def]
  exact Int.fdiv_eq_ediv _ (Int.natCast_nonneg _)

lemma filter_head?_eq_find? {α : Type} (p : α → Bool) (l : List α) :
    (l.filter p).head? = l.find? p := by
  induction l with
  | nil => rfl
  | cons a as ih => cases h : p a <;> simp [List.filter_cons, h, List.find?_cons, ih]

lemma freshIds_fst (g : ℕ) (l : List String) :
    (freshIds g l).1 = (List.range l.length).map (fun i => g + i) := by
  induction l generalizing g with
  | nil => rfl
  | cons x xs ih =>
      show g :: (freshIds (g + 1) xs).1 = _
      rw [List.length_cons, List.range_succ_eq_map, List.map_cons, List.map_map, ih]
      rw [Nat.add_zero]
      exact congrArg (List.cons g)
        (List.map_congr_left (fun a ha => by show g + 1 + a = g + (a + 1); omega))

/-- C1 counterexample: for the two-decimal reward 0.29, the program's
binary64 arithmetic gives `0.29 * 100 = 28.999999999999996`, so the
payload carries `int(...)` = 28, while `round(0.29 * 100)` = 29: the
transmitted reward differs from `round(input_reward * 100)`. -/
theorem create_study_reward_float_truncates_029 :
    (create_study "sv" cfgC1f "pr" "20250101_000000").reward = 28 ∧
    round (Rat.divInt 29 100 * (100 : ℚ)) = 29 ∧
    (create_study "sv" cfgC1f "pr" "20250101_000000").reward
      ≠ round (Rat.divInt 29 100 * (100 : ℚ)) := by
  have h28 : (create_study "sv" cfgC1f "pr" "20250101_000000").reward = 28 := by
    decide
  have h29 : round (Rat.divInt 29 100 * (100 : ℚ)) = 29 := by
    rw [Rat.divInt_eq_div]
    norm_num [round_eq]
  refine ⟨h28, h29, ?_⟩
  rw [h28, h29]
  decide

/-- C1 (amended): the reward `create_study` transmits is the binary64
product `reward * 100` truncated toward zero, not rounded: whenever that
float product is exactly an integer `k` the payload carries `k` (so a
reward such as 2.50, whose product is exactly 250.0, still transmits
`round(reward * 100)`), but the product of a two-decimal reward can round
below the integer, as for 0.29, where the transmitted value is
`round(0.29 * 100) - 1`. -/
theorem create_study_reward_truncated_product :
    (∀ (cfg : StudyConfig) (survey_id project_id now_stamp : String) (k : ℤ),
      fl (mulInt cfg.reward 100) = ((k : ℤ) : ℚ) →
      (create_study survey_id cfg project_id now_stamp).reward = k) ∧
    (create_study "sv" cfgC1 "pr" "20250101_000000").reward = 250 ∧
    (create_study "sv" cfgC1f "pr" "20250101_000000").reward
      = round (Rat.divInt 29 100 * (100 : ℚ)) - 1 := by
  refine ⟨?_, by decide, ?_⟩
  · intro cfg survey_id project_id now_stamp k h
    have h1 : (create_study survey_id cfg project_id now_stamp).reward
        = pyInt (fl (mulInt cfg.reward 100)) := rfl
    rw [h1, h, pyInt_intCast]
  · have h29 : round (Rat.divInt 29 100 * (100 : ℚ)) = 29 := by
      rw [Rat.divInt_eq_div]
      norm_num [round_eq]
    rw [h29]
    decide

theorem create_study_reward_truncated_product_witness :
    (create_study "w" cfgC1 "w" "w").reward = 250 :=
  create_study_reward_truncated_product.1 cfgC1 "w" "w" "w" 250 (by decide)

/-- C2: `find_question_column` resolves in this order: the question text
itself when it is literally a column; otherwise the first column (in the
table's original order) passing the survey-column filter, i.e. not
standard, not `Custom `-prefixed, not excluded demographic/meta; otherwise
the table's last column unconditionally. -/
theorem find_question_column_resolution (df : DF) (qt : String) :
    (qt ∈ colNames df → find_question_column df qt = some qt) ∧
    (qt ∉ colNames df →
      find_question_column df qt =
        match (colNames df).find? isSurveyCol with
        | some c => some c
        | Option.none => (colNames df).getLast?) := by
  constructor
  · intro h
    simp [find_question_column, h]
  · intro h
    rw [find_question_column, if_neg h, ← filter_head?_eq_find?]
    cases hfl : (colNames df).filter isSurveyCol with
    | nil => simp
    | cons c cs => simp

theorem find_question_column_resolution_witness :
    find_question_column dfC2 "zzz" = some "What did you eat?" := by
  have h := (find_question_column_resolution dfC2 "zzz").2 (by decide)
  rw [h]; decide

/-- C3: `age_to_generation` buckets integer ages by the fixed breakpoints
(under 18, 18-27, 28-43, 44-59, 60-78, 79 and above), maps the sample ages
17, 18, 78, 79 as the spec lists, and returns "Unknown" without raising on
the non-numeric inputs "abc" and None. -/
theorem age_to_generation_breakpoints (n : ℤ) :
    (n < 18 → age_to_generation (PyVal.int n) = "Gen Alpha (under 18)") ∧
    (18 ≤ n ∧ n ≤ 27 → age_to_generation (PyVal.int n) = "Gen Z (18-27)") ∧
    (28 ≤ n ∧ n ≤ 43 → age_to_generation (PyVal.int n) = "Millennial (28-43)") ∧
    (44 ≤ n ∧ n ≤ 59 → age_to_generation (PyVal.int n) = "Gen X (44-59)") ∧
    (60 ≤ n ∧ n ≤ 78 → age_to_generation (PyVal.int n) = "Baby Boomer (60-78)") ∧
    (79 ≤ n → age_to_generation (PyVal.int n) = "Silent Generation (79+)") ∧
    age_to_generation (PyVal.int 17) = "Gen Alpha (under 18)" ∧
    age_to_generation (PyVal.int 18) = "Gen Z (18-27)" ∧
    age_to_generation (PyVal.int 78) = "Baby Boomer (60-78)" ∧
    age_to_generation (PyVal.int 79) = "Silent Generation (79+)" ∧
    age_to_generation (PyVal.str "abc") = "Unknown" ∧
    age_to_generation PyVal.none = "Unknown" := by
  have key : ∀ m : ℤ, age_to_generation (PyVal.int m) =
      if m < 18 then "Gen Alpha (under 18)"
      else if m ≤ 27 then "Gen Z (18-27)"
      else if m ≤ 43 then "Millennial (28-43)"
      else if m ≤ 59 then "Gen X (44-59)"
      else if m ≤ 78 then "Baby Boomer (60-78)"
      else "Silent Generation (79+)" := by
    intro m
    simp only [age_to_generation, pyFloatOf, pyInt_intCast]
  refine ⟨?_, ?_, ?_, ?_, ?_, ?_,
    by decide, by decide, by decide, by decide, by decide, by decide⟩
  · intro h
    rw [key, if_pos h]
  · intro h
    obtain ⟨h1, h2⟩ := h
    rw [key, if_neg (by omega), if_pos (by omega)]
  · intro h
    obtain ⟨h1, h2⟩ := h
    rw [key, if_neg (by omega), if_neg (by omega), if_pos (by omega)]
  · intro h
    obtain ⟨h1, h2⟩ := h
    rw [key, if_neg (by omega), if_neg (by omega), if_neg (by omega),
      if_pos (by omega)]
  · intro h
    obtain ⟨h1, h2⟩ := h
    rw [key, if_neg (by omega), if_neg (by omega), if_neg (by omega),
      if_neg (by omega), if_pos (by omega)]
  · intro h
    rw [key, if_neg (by omega), if_neg (by omega), if_neg (by omega),
      if_neg (by omega), if_neg (by omega)]

theorem age_to_generation_breakpoints_witness :
    age_to_generation (PyVal.int 30) = "Millennial (28-43)" :=
  (age_to_generation_breakpoints 30).2.2.1 ⟨by decide, by decide⟩

/-- C7: for every survey configuration with N answer strings, the payload
built by `create_survey` contains exactly N generated answer identifiers,
pairwise distinct, paired one-to-one with the answer texts in input
order. -/
theorem create_survey_answer_identifiers (researcher_id : String)
    (cfg : SurveyConfig) (g : ℕ) :
    ∀ q ∈ (create_survey researcher_id cfg g).1.questions,
      q.answers.length = cfg.answers.length ∧
      q.answers.map AnswerItem.value = cfg.answers ∧
      (q.answers.map AnswerItem.id).Nodup := by
  intro q hq
  simp only [create_survey, List.mem_singleton] at hq
  subst hq
  set gg := (freshId (freshId g).2).2 with hgg
  have hids := freshIds_fst gg cfg.answers
  have hlen : (freshIds gg cfg.answers).1.length = cfg.answers.length := by
    rw [hids]; simp
  refine ⟨?_, ?_, ?_⟩
  · show (List.map (fun p => AnswerItem.mk p.1 p.2)
        ((freshIds gg cfg.answers).1.zip cfg.answers)).length = _
    simp [List.length_zip, hlen]
  · show List.map AnswerItem.value
        (List.map (fun p => AnswerItem.mk p.1 p.2)
          ((freshIds gg cfg.answers).1.zip cfg.answers)) = _
    rw [List.map_map]
    exact List.map_snd_zip _ _ hlen.ge
  · show (List.map AnswerItem.id
        (List.map (fun p => AnswerItem.mk p.1 p.2)
          ((freshIds gg cfg.answers).1.zip cfg.answers))).Nodup
    rw [List.map_map]
    have hcomp : (AnswerItem.id ∘ fun p : ℕ × String => AnswerItem.mk p.1 p.2)
        = Prod.fst := rfl
    rw [hcomp, List.map_fst_zip _ _ hlen.le, hids]
    exact (List.nodup_range _).map (fun i j hij => by omega)

/-- C8: for every table, the frequency series `plot_survey_responses`
renders for the resolved answer column drops missing values, stringifies
the remaining values before counting, and is sorted ascending by count;
on the cells `["A","A","B",None]` the series is B:1, A:2. -/
theorem plot_survey_responses_frequencies :
    (∀ (df : DF) (qcol : String) (counts : List (String × ℕ)),
      plot_survey_responses df qcol = some counts →
        List.Pairwise (fun a b : String × ℕ => a.2 ≤ b.2) counts ∧
        ∃ actual, find_question_column df qcol = some actual ∧
          (∀ p ∈ counts,
            p.2 = (((getColD df actual).filter (fun v => !(pyIsNa v))).map pyStr).count p.1) ∧
          (∀ s : String, s ∈ counts.map Prod.fst ↔
            s ∈ ((getColD df actual).filter (fun v => !(pyIsNa v))).map pyStr)) ∧
    response_counts [PyVal.str "A", PyVal.str "A", PyVal.str "B", PyVal.none]
      = [("B", 1), ("A", 2)] := by
  constructor
  · intro df qcol counts h
    cases hf : find_question_column df qcol with
    | none => simp [plot_survey_responses, hf] at h
    | some actual =>
        cases hg : getCol? df actual with
        | none => simp [plot_survey_responses, hf, hg] at h
        | some vals =>
            have hc : counts = response_counts vals := by
              simp [plot_survey_responses, hf, hg] at h
              exact h.symm
            have hvals : getColD df actual = vals := by simp [getColD, hg]
            subst hc
            have p1 : (response_counts vals).Perm
                (value_counts ((vals.filter (fun v => !(pyIsNa v))).map pyStr)) :=
              List.perm_insertionSort _ _
            have p2 : (value_counts ((vals.filter (fun v => !(pyIsNa v))).map pyStr)).Perm
                (((vals.filter (fun v => !(pyIsNa v))).map pyStr).dedup.map
                  (fun k => (k, ((vals.filter (fun v => !(pyIsNa v))).map pyStr).count k))) :=
              List.perm_insertionSort _ _
            have p12 := p1.trans p2
            refine ⟨List.sorted_insertionSort _ _, actual, rfl, ?_, ?_⟩
            · intro p hp
              rw [hvals]
              have hp' := p12.mem_iff.mp hp
              obtain ⟨k, hk, rfl⟩ := List.mem_map.mp hp'
              rfl
            · intro s
              rw [hvals]
              rw [(p12.map Prod.fst).mem_iff]
              rw [List.map_map]
              have hcomp : (Prod.fst ∘ fun k : String =>
                  (k, ((vals.filter (fun v => !(pyIsNa v))).map pyStr).count k)) = id := rfl
              rw [hcomp, List.map_id]
              exact List.mem_dedup
  · decide

theorem plot_survey_responses_frequencies_witness :
    List.Pairwise (fun a b : String × ℕ => a.2 ≤ b.2) [("B", 1), ("A", 2)] :=
  (plot_survey_responses_frequencies.1 dfC8 "Q1" [("B", 1), ("A", 2)] (by decide)).1

lemma show_shape_err_missing (info : StudyInfo) (exportDf : DF) (tz : ℤ)
    (h : info.published_at = Option.none) :
    show_study_results info exportDf tz
      = Except.error "AttributeError: replace on None" := by
  simp [show_study_results, h]

lemma show_shape_err_parse (info : StudyInfo) (exportDf : DF) (tz : ℤ)
    (pub : String) (hpub : info.published_at = some pub)
    (h : parseISOUTC? pub = Option.none) :
    show_study_results info exportDf tz
      = Except.error "ValueError: invalid isoformat string" := by
  simp [show_study_results, hpub, h]

lemma show_shape_missing_col (info : StudyInfo) (exportDf : DF) (tz : ℤ)
    (pub : String) (created : ℤ)
    (hpub : info.published_at = some pub)
    (hparse : parseISOUTC? pub = some created)
    (hcol : "Completed at" ∉ colNames exportDf) :
    show_study_results info exportDf tz = Except.ok
      ([Printed.studyName info.name, Printed.status info.status,
        Printed.totalPlaces info.total_available_places,
        Printed.totalSubmissions info.places_taken,
        Printed.createdAt (created + 60 * tz)] ++ [Printed.completedColumnMissing],
       exportDf) := by
  simp only [show_study_results, hpub, hparse]
  rw [if_neg hcol]

lemma show_shape_no_completions (info : StudyInfo) (exportDf : DF) (tz : ℤ)
    (pub : String) (created : ℤ)
    (hpub : info.published_at = some pub)
    (hparse : parseISOUTC? pub = some created)
    (hcol : "Completed at" ∈ colNames exportDf)
    (hmax : seriesMax?
        (((getColD exportDf "Completed at").map to_datetime_coerce).filterMap id)
      = Option.none) :
    show_study_results info exportDf tz = Except.ok
      ([Printed.studyName info.name, Printed.status info.status,
        Printed.totalPlaces info.total_available_places,
        Printed.totalSubmissions info.places_taken,
        Printed.createdAt (created + 60 * tz)] ++ [Printed.noCompletionsYet],
       exportDf) := by
  simp only [show_study_results, hpub, hparse]
  rw [if_pos hcol, hmax]

lemma show_shape_latest (info : StudyInfo) (exportDf : DF) (tz : ℤ)
    (pub : String) (created latest : ℤ)
    (hpub : info.published_at = some pub)
    (hparse : parseISOUTC? pub = some created)
    (hcol : "Completed at" ∈ colNames exportDf)
    (hmax : seriesMax?
        (((getColD exportDf "Completed at").map to_datetime_coerce).filterMap id)
      = some latest) :
    show_study_results info exportDf tz = Except.ok
      ([Printed.studyName info.name, Printed.status info.status,
        Printed.totalPlaces info.total_available_places,
        Printed.totalSubmissions info.places_taken,
        Printed.createdAt (created + 60 * tz)] ++
       [Printed.lastResponseAt (latest + 60 * tz),
        Printed.timeLapsed (roundHalfEven (Rat.divInt (latest - created) 60))],
       exportDf) := by
  simp only [show_study_results, hpub, hparse]
  rw [if_pos hcol, hmax]

/-- C5: on every export lacking a `"Completed at"` column (with study
metadata whose published time parses), `show_study_results` prints the
missing-column warning, returns that table unchanged, does not raise, and
prints no duration. -/
theorem show_study_results_no_completed_column (info : StudyInfo)
    (exportDf : DF) (tz : ℤ) (pub : String) (created : ℤ)
    (hpub : info.published_at = some pub)
    (hparse : parseISOUTC? pub = some created)
    (hcol : "Completed at" ∉ colNames exportDf) :
    (show_study_results info exportDf tz).toOption.map Prod.snd = some exportDf ∧
    Printed.completedColumnMissing ∈ printedOf (show_study_results info exportDf tz) ∧
    reportedMinutes (show_study_results info exportDf tz) = Option.none := by
  rw [show_shape_missing_col info exportDf tz pub created hpub hparse hcol]
  refine ⟨rfl, ?_, ?_⟩
  · simp [printedOf]
  · simp [reportedMinutes, timeLapsedOf]

theorem show_study_results_no_completed_column_witness :
    (show_study_results infoC4 dfC5 3).toOption.map Prod.snd = some dfC5 ∧
    Printed.completedColumnMissing ∈ printedOf (show_study_results infoC4 dfC5 3) ∧
    reportedMinutes (show_study_results infoC4 dfC5 3) = Option.none :=
  show_study_results_no_completed_column infoC4 dfC5 3
    "2025-01-01T00:00:00Z" 1735689600 rfl (by decide) (by decide)

/-- C10: when the `published_at` field of the study metadata is absent or
null, `show_study_results` raises an uncaught error whose outcome does not
depend on the export (the export is never consulted); it does not degrade
to a warning or return a partial result. -/
theorem show_study_results_missing_published (info : StudyInfo)
    (e1 e2 : DF) (tz : ℤ) (h : info.published_at = Option.none) :
    show_study_results info e1 tz
        = Except.error "AttributeError: replace on None" ∧
      show_study_results info e1 tz = show_study_results info e2 tz := by
  constructor
  · simp [show_study_results, h]
  · simp [show_study_results, h]

lemma roundHalfEven_nearest (q : ℚ) :
    |((roundHalfEven q : ℤ) : ℚ) - q| ≤ 1 / 2 := by
  have hfl : ratFloor q = ⌊q⌋ := ratFloor_eq_floor q
  have hle : ((⌊q⌋ : ℤ) : ℚ) ≤ q := Int.floor_le q
  have hlt : q < ((⌊q⌋ : ℤ) : ℚ) + 1 := Int.lt_floor_add_one q
  have hD : (0 : ℚ) < (q.den : ℚ) := by exact_mod_cast q.den_pos
  have hqD : q * (q.den : ℚ) = (q.num : ℚ) := by
    calc q * (q.den : ℚ) = ((q.num : ℚ) / (q.den : ℚ)) * (q.den : ℚ) := by
          rw [Rat.num_div_den]
      _ = (q.num : ℚ) := div_mul_cancel₀ _ (ne_of_gt hD)
  have hexp : ∀ C : ℚ, 2 * (q - C) * (q.den : ℚ)
      = 2 * (q.num : ℚ) - 2 * C * (q.den : ℚ) := by
    intro C
    rw [← hqD]; ring
  simp only [roundHalfEven, hfl]
  split_ifs with h1 h2 h3
  · have h1' : 2 * (q.num : ℚ) - 2 * ((⌊q⌋ : ℤ) : ℚ) * (q.den : ℚ) < (q.den : ℚ) := by
      exact_mod_cast h1
    have hmul : 2 * (q - ((⌊q⌋ : ℤ) : ℚ)) * (q.den : ℚ) < 1 * (q.den : ℚ) := by
      rw [hexp, one_mul]; exact h1'
    have hfr := (mul_lt_mul_right hD).mp hmul
    rw [abs_le]
    constructor <;> linarith
  · have h1' : (q.den : ℚ) ≤ 2 * (q.num : ℚ) - 2 * ((⌊q⌋ : ℤ) : ℚ) * (q.den : ℚ) := by
      exact_mod_cast not_lt.mp h1
    have hmul : 1 * (q.den : ℚ) ≤ 2 * (q - ((⌊q⌋ : ℤ) : ℚ)) * (q.den : ℚ) := by
      rw [hexp, one_mul]; exact h1'
    have hfr := (mul_le_mul_right hD).mp hmul
    rw [abs_le]
    push_cast
    constructor <;> linarith
  · have ha : (q.den : ℚ) ≤ 2 * (q.num : ℚ) - 2 * ((⌊q⌋ : ℤ) : ℚ) * (q.den : ℚ) := by
      exact_mod_cast not_lt.mp h1
    have hb : 2 * (q.num : ℚ) - 2 * ((⌊q⌋ : ℤ) : ℚ) * (q.den : ℚ) ≤ (q.den : ℚ) := by
      exact_mod_cast not_lt.mp h2
    have hmua : 1 * (q.den : ℚ) ≤ 2 * (q - ((⌊q⌋ : ℤ) : ℚ)) * (q.den : ℚ) := by
      rw [hexp, one_mul]; exact ha
    have hmub : 2 * (q - ((⌊q⌋ : ℤ) : ℚ)) * (q.den : ℚ) ≤ 1 * (q.den : ℚ) := by
      rw [hexp, one_mul]; exact hb
    have hfra := (mul_le_mul_right hD).mp hmua
    have hfrb := (mul_le_mul_right hD).mp hmub
    rw [abs_le]
    constructor <;> linarith
  · have ha : (q.den : ℚ) ≤ 2 * (q.num : ℚ) - 2 * ((⌊q⌋ : ℤ) : ℚ) * (q.den : ℚ) := by
      exact_mod_cast not_lt.mp h1
    have hb : 2 * (q.num : ℚ) - 2 * ((⌊q⌋ : ℤ) : ℚ) * (q.den : ℚ) ≤ (q.den : ℚ) := by
      exact_mod_cast not_lt.mp h2
    have hmua : 1 * (q.den : ℚ) ≤ 2 * (q - ((⌊q⌋ : ℤ) : ℚ)) * (q.den : ℚ) := by
      rw [hexp, one_mul]; exact ha
    have hmub : 2 * (q - ((⌊q⌋ : ℤ) : ℚ)) * (q.den : ℚ) ≤ 1 * (q.den : ℚ) := by
      rw [hexp, one_mul]; exact hb
    have hfra := (mul_le_mul_right hD).mp hmua
    have hfrb := (mul_le_mul_right hD).mp hmub
    rw [abs_le]
    push_cast
    constructor <;> linarith

/-- C4: the elapsed time `show_study_results` reports is the difference
between the latest completion and the published time, both taken in UTC,
printed rounded to the nearest whole minute (ties to even), and it is the
same for every display time zone; for published 2025-01-01T00:00:00Z and
latest completion 2025-01-01T00:30:00Z it is 30 minutes. -/
theorem show_study_results_duration_utc :
    (∀ tz : ℤ, reportedMinutes (show_study_results infoC4 dfC4 tz) = some 30) ∧
    (∀ (info : StudyInfo) (exportDf : DF) (tz₁ tz₂ : ℤ),
      reportedMinutes (show_study_results info exportDf tz₁)
        = reportedMinutes (show_study_results info exportDf tz₂)) ∧
    (∀ (info : StudyInfo) (exportDf : DF) (tz : ℤ) (pub : String)
        (created latest : ℤ),
      info.published_at = some pub →
      parseISOUTC? pub = some created →
      "Completed at" ∈ colNames exportDf →
      seriesMax? (((getColD exportDf "Completed at").map to_datetime_coerce).filterMap id)
        = some latest →
      reportedMinutes (show_study_results info exportDf tz)
        = some (roundHalfEven (((latest : ℚ) - (created : ℚ)) / 60))) ∧
    (∀ q : ℚ, |((roundHalfEven q : ℤ) : ℚ) - q| ≤ 1 / 2) := by
  have key : ∀ (info : StudyInfo) (exportDf : DF) (tz : ℤ) (pub : String)
      (created latest : ℤ),
      info.published_at = some pub →
      parseISOUTC? pub = some created →
      "Completed at" ∈ colNames exportDf →
      seriesMax? (((getColD exportDf "Completed at").map to_datetime_coerce).filterMap id)
        = some latest →
      reportedMinutes (show_study_results info exportDf tz)
        = some (roundHalfEven (((latest : ℚ) - (created : ℚ)) / 60)) := by
    intro info exportDf tz pub created latest hpub hparse hcol hmax
    rw [show_shape_latest info exportDf tz pub created latest hpub hparse hcol hmax]
    have harg : Rat.divInt (latest - created) 60
        = ((latest : ℚ) - (created : ℚ)) / 60 := by
      rw [Rat.divInt_eq_div]; push_cast; ring
    simp [reportedMinutes, timeLapsedOf, harg]
  refine ⟨?_, ?_, key, roundHalfEven_nearest⟩
  · intro tz
    rw [key infoC4 dfC4 tz "2025-01-01T00:00:00Z" 1735689600 1735691400 rfl
      (by decide) (by decide) (by decide)]
    norm_num
    decide
  · intro info exportDf tz₁ tz₂
    cases hp : info.published_at with
    | none =>
        rw [show_shape_err_missing info exportDf tz₁ hp,
          show_shape_err_missing info exportDf tz₂ hp]
    | some pub =>
        cases hq : parseISOUTC? pub with
        | none =>
            rw [show_shape_err_parse info exportDf tz₁ pub hp hq,
              show_shape_err_parse info exportDf tz₂ pub hp hq]
        | some created =>
            by_cases hcol : "Completed at" ∈ colNames exportDf
            · cases hm : seriesMax?
                  (((getColD exportDf "Completed at").map to_datetime_coerce).filterMap id) with
              | none =>
                  rw [show_shape_no_completions info exportDf tz₁ pub created hp hq hcol hm,
                    show_shape_no_completions info exportDf tz₂ pub created hp hq hcol hm]
                  simp [reportedMinutes, timeLapsedOf]
              | some latest =>
                  rw [show_shape_latest info exportDf tz₁ pub created latest hp hq hcol hm,
                    show_shape_latest info exportDf tz₂ pub created latest hp hq hcol hm]
                  simp [reportedMinutes, timeLapsedOf]
            · rw [show_shape_missing_col info exportDf tz₁ pub created hp hq hcol,
                show_shape_missing_col info exportDf tz₂ pub created hp hq hcol]
              simp [reportedMinutes, timeLapsedOf]

theorem show_study_results_duration_utc_witness :
    reportedMinutes (show_study_results infoC4 dfC4 7) = some 30 :=
  show_study_results_duration_utc.1 7

theorem show_study_results_missing_published_witness :
    show_study_results infoC10 dfC5 0
        = Except.error "AttributeError: replace on None" ∧
      show_study_results infoC10 dfC5 0 = show_study_results infoC10 dfC8 0 :=
  show_study_results_missing_published infoC10 dfC5 dfC8 0 rfl

lemma lookupCol_map_extend (n : String) (extra : List PyVal)
    (l : List (String × List PyVal)) :
    lookupCol n (l.map (fun p => if p.1 = n then (p.1, p.2 ++ extra) else p))
      = (lookupCol n l).map (fun v => v ++ extra) := by
  induction l with
  | nil => rfl
  | cons a as ih => by_cases h : a.1 = n <;> simp [lookupCol, h, ih]

lemma lookupCol_isSome_of_mem (n : String) (l : List (String × List PyVal))
    (h : n ∈ l.map Prod.fst) : ∃ v, lookupCol n l = some v := by
  induction l with
  | nil => simp at h
  | cons a as ih =>
      by_cases ha : a.1 = n
      · exact ⟨a.2, by simp [lookupCol, ha]⟩
      · have h' : n ∈ as.map Prod.fst := by
          rcases List.mem_cons.mp h with he | hm
          · exact absurd he.symm ha
          · exact hm
        obtain ⟨v, hv⟩ := ih h'
        exact ⟨v, by simp [lookupCol, ha, hv]⟩

lemma colNames_extendCol (df : DF) (n : String) (extra : List PyVal) :
    colNames (extendCol df n extra) = colNames df := by
  simp only [extendCol, colNames, List.map_map]
  apply List.map_congr_left
  intro p hp
  by_cases h : p.1 = n <;> simp [Function.comp, h]

lemma getColD_extendCol (df : DF) (n : String) (extra : List PyVal)
    (h : n ∈ colNames df) :
    getColD (extendCol df n extra) n = getColD df n ++ extra := by
  obtain ⟨v, hv⟩ := lookupCol_isSome_of_mem n df.cols h
  simp [getColD, getCol?, extendCol, lookupCol_map_extend, hv]

lemma parsed_extendCol (exportDf : DF) (n : String) (extra : List PyVal)
    (hcol : n ∈ colNames exportDf)
    (hextra : ∀ v ∈ extra, to_datetime_coerce v = Option.none) :
    ((getColD (extendCol exportDf n extra) n).map to_datetime_coerce).filterMap id
      = ((getColD exportDf n).map to_datetime_coerce).filterMap id := by
  rw [getColD_extendCol _ _ _ hcol, List.map_append, List.filterMap_append]
  have hnil : (extra.map to_datetime_coerce).filterMap id = [] := by
    rw [List.filterMap_map]
    apply List.filterMap_eq_nil_iff.mpr
    intro v hv
    exact hextra v hv
  rw [hnil, List.append_nil]

/-- C6: with a `"Completed at"` column present (and parseable study
metadata), `show_study_results` never raises whatever the cells hold:
unparseable values coerce to missing, the latest-completion maximum is
taken over the parseable values only (appending unparseable cells to the
column leaves the reported duration unchanged), and when every value is
missing it prints the no-completions line, reports no duration and still
returns the table. -/
theorem show_study_results_coercion (info : StudyInfo) (exportDf : DF)
    (tz : ℤ) (pub : String) (created : ℤ)
    (hpub : info.published_at = some pub)
    (hparse : parseISOUTC? pub = some created)
    (hcol : "Completed at" ∈ colNames exportDf) :
    (show_study_results info exportDf tz).toOption.map Prod.snd = some exportDf ∧
    reportedMinutes (show_study_results info exportDf tz)
      = (seriesMax? (((getColD exportDf "Completed at").map to_datetime_coerce).filterMap id)).map
          (fun latest => roundHalfEven (Rat.divInt (latest - created) 60)) ∧
    (((getColD exportDf "Completed at").map to_datetime_coerce).filterMap id = [] →
      Printed.noCompletionsYet ∈ printedOf (show_study_results info exportDf tz) ∧
      reportedMinutes (show_study_results info exportDf tz) = Option.none) ∧
    (∀ extra : List PyVal, (∀ v ∈ extra, to_datetime_coerce v = Option.none) →
      reportedMinutes (show_study_results info (extendCol exportDf "Completed at" extra) tz)
        = reportedMinutes (show_study_results info exportDf tz)) := by
  have hframe : ∀ e : DF, "Completed at" ∈ colNames e →
      (show_study_results info e tz).toOption.map Prod.snd = some e ∧
      reportedMinutes (show_study_results info e tz)
        = (seriesMax? (((getColD e "Completed at").map to_datetime_coerce).filterMap id)).map
            (fun latest => roundHalfEven (Rat.divInt (latest - created) 60)) := by
    intro e hce
    cases hm : seriesMax? (((getColD e "Completed at").map to_datetime_coerce).filterMap id) with
    | none =>
        rw [show_shape_no_completions info e tz pub created hpub hparse hce hm]
        exact ⟨rfl, by simp [reportedMinutes, timeLapsedOf]⟩
    | some latest =>
        rw [show_shape_latest info e tz pub created latest hpub hparse hce hm]
        exact ⟨rfl, by simp [reportedMinutes, timeLapsedOf]⟩
  obtain ⟨h1, h2⟩ := hframe exportDf hcol
  refine ⟨h1, h2, ?_, ?_⟩
  · intro hnil
    have hm0 : seriesMax?
        (((getColD exportDf "Completed at").map to_datetime_coerce).filterMap id)
      = Option.none := by rw [hnil]; rfl
    rw [show_shape_no_completions info exportDf tz pub created hpub hparse hcol hm0]
    constructor
    · simp [printedOf]
    · simp [reportedMinutes, timeLapsedOf]
  · intro extra hextra
    have hce : "Completed at" ∈ colNames (extendCol exportDf "Completed at" extra) := by
      rw [colNames_extendCol]; exact hcol
    obtain ⟨h1', h2'⟩ := hframe (extendCol exportDf "Completed at" extra) hce
    rw [h2', h2, parsed_extendCol exportDf "Completed at" extra hcol hextra]

theorem show_study_results_coercion_witness :
    reportedMinutes (show_study_results infoC4 dfC6 2)
        = (seriesMax? (((getColD dfC6 "Completed at").map to_datetime_coerce).filterMap id)).map
            (fun latest => roundHalfEven (Rat.divInt (latest - 1735689600) 60)) ∧
      reportedMinutes
          (show_study_results infoC4 (extendCol dfC6 "Completed at" [PyVal.str "zz"]) 2)
        = reportedMinutes (show_study_results infoC4 dfC6 2) := by
  have h := show_study_results_coercion infoC4 dfC6 2 "2025-01-01T00:00:00Z"
    1735689600 rfl (by decide) (by decide)
  exact ⟨h.2.1, h.2.2.2 [PyVal.str "zz"] (by decide)⟩

/-- C9: `plot_responses_by_generation` leaves the caller's frame
unchanged: the store slot the caller passed holds exactly the table it
held before, while the derived `Generation` column went onto a freshly
allocated copy (the store grew by one slot). -/
theorem plot_responses_by_generation_frame (σ : Store) (r : ℕ)
    (qc ac : String) (σ' : Store) (ct : List ((PyVal × PyVal) × ℕ))
    (hr : r < σ.length)
    (h : plot_responses_by_generation σ r qc ac = some (σ', ct)) :
    σ'[r]? = σ[r]? ∧ σ'.length = σ.length + 1 := by
  unfold plot_responses_by_generation at h
  dsimp only [] at h
  split at h
  · exact Option.noConfusion h
  · rename_i df heq
    split at h
    · exact Option.noConfusion h
    · rename_i actual heqf
      split at h
      · exact Option.noConfusion h
      · rename_i df₀ heq0
        split at h
        · exact Option.noConfusion h
        · rename_i ages heqa
          split at h
          · exact Option.noConfusion h
          · rename_i dfc heqc
            split at h
            · exact Option.noConfusion h
            · rename_i gens heqg
              split at h
              · exact Option.noConfusion h
              · rename_i answers heqq
                simp only [Option.some.injEq, Prod.mk.injEq] at h
                obtain ⟨hσ, hct⟩ := h
                subst hσ
                constructor
                · rw [List.getElem?_set_ne (by omega)]
                  rw [List.getElem?_append]
                  rw [if_pos hr]
                · simp [List.length_set, List.length_append]

theorem plot_responses_by_generation_frame_witness :
    [dfC9, dfC9b][0]? = [dfC9][0]? ∧ [dfC9, dfC9b].length = [dfC9].length + 1 :=
  plot_responses_by_generation_frame [dfC9] 0 "Q1" "Age" [dfC9, dfC9b]
    [((PyVal.str "Gen Z (18-27)", PyVal.str "A"), 1)] (by decide) (by decide)

theorem create_survey_answer_identifiers_witness :
    (QuestionItem.mk 1 "Q" "single"
        [AnswerItem.mk 2 "a", AnswerItem.mk 3 "b", AnswerItem.mk 4 "c"]).answers.map
        AnswerItem.value = ["a", "b", "c"] ∧
      ((QuestionItem.mk 1 "Q" "single"
        [AnswerItem.mk 2 "a", AnswerItem.mk 3 "b", AnswerItem.mk 4 "c"]).answers.map
        AnswerItem.id).Nodup := by
  have h := create_survey_answer_identifiers "r" cfgC7 0
    (QuestionItem.mk 1 "Q" "single"
      [AnswerItem.mk 2 "a", AnswerItem.mk 3 "b", AnswerItem.mk 4 "c"])
    (by decide)
  exact ⟨h.2.1, h.2.2⟩
